import Mathlib

/-!
Verification development for the meta-analysis MCP server
(session store `src/session-manager.ts`, R-process executor `src/r-executor.ts`,
tool dispatcher `src/index.ts`, R entry point `scripts/entry/mcp_tools.R`).

The TypeScript/R sources are shallowly embedded: pure logic becomes Lean
functions, filesystem effects become explicit state passing over an `FsState`
value, process interaction becomes a `Worker` behaviour record folded by the
executor model, and thrown JS errors become `Except`/explicit outcome values.
JSON serialisation between the session manager and its metadata files is
modelled as the identity embedding (files store the structured record;
`JSON.parse (JSON.stringify x) = x` on these records).
-/

namespace MetaMVP

/-! ## JS-like values

`JVal` models the JSON-ish JavaScript values flowing through the dispatcher:
`undefVal` is JavaScript `undefined` (absent field / missing argument). -/

inductive JVal where
  | undefVal
  | null
  | bool (b : Bool)
  | num (q : Rat)
  | str (s : String)
  | arr (xs : List JVal)
  | obj (fields : List (String × JVal))

/-- JavaScript truthiness (`if (x)`), restricted to the values `JVal` models.
NaN is not representable in `Rat`, so `num` is truthy iff nonzero. -/
def truthy : JVal → Bool
  | .undefVal => false
  | .null => false
  | .bool b => b
  | .num q => !(q == 0)
  | .str s => !(s == "")
  | .arr _ => true
  | .obj _ => true

/-- `typeof x === 'string'`. -/
def isString : JVal → Bool
  | .str _ => true
  | _ => false

/-- `typeof x === 'boolean'`. -/
def isBool : JVal → Bool
  | .bool _ => true
  | _ => false

/-- `typeof x === 'number'`. -/
def isNum : JVal → Bool
  | .num _ => true
  | _ => false

/-- `Array.isArray x`. -/
def isArr : JVal → Bool
  | .arr _ => true
  | _ => false

/-- First-match association-list lookup (JS object property access on own
properties; JS objects keep one entry per key). -/
def fieldLookup : List (String × JVal) → String → Option JVal
  | [], _ => none
  | (k, v) :: rest, f => if k == f then some v else fieldLookup rest f

/-- JS property access `x.f`: `undefined` on a missing field and on every
non-object (the dispatcher only dereferences values it has checked). -/
def getField (v : JVal) (f : String) : JVal :=
  match v with
  | .obj fields => (fieldLookup fields f).getD .undefVal
  | _ => .undefVal

/-- Template-literal coercion of a JS value to a display string, as used in
error messages such as "Session not found: " followed by the value.  Only the
cases the claims exercise (strings and `undefined`) are rendered exactly;
compound values are approximated by their JS `toString` shape. -/
def jsDisplay : JVal → String
  | .undefVal => "undefined"
  | .null => "null"
  | .bool b => if b then "true" else "false"
  | .num q => toString q
  | .str s => s
  | .arr _ => ""
  | .obj _ => "[object Object]"

/-- `=== 'error'` : strict equality of a JS value with the string "error". -/
def isStrErrorVal : JVal → Bool
  | .str s => s == "error"
  | _ => false

/-! ## Errors (`src/errors.ts`)

`AppError` carries the `name`, `code` and `message` fields of the error
classes; `handleError` turns one into the response envelope. -/

structure AppError where
  name : String
  code : String
  message : String
deriving Repr, DecidableEq

/-- `new ValidationError(msg)` — code VALIDATION_ERROR, HTTP 400. -/
def mkValidationError (msg : String) : AppError :=
  ⟨"ValidationError", "VALIDATION_ERROR", msg⟩

/-- `new SessionError(msg)` — code SESSION_ERROR, HTTP 404. -/
def mkSessionError (msg : String) : AppError :=
  ⟨"SessionError", "SESSION_ERROR", msg⟩

/-- `new RScriptError(msg)` — code R_SCRIPT_ERROR, HTTP 500. -/
def mkRScriptError (msg : String) : AppError :=
  ⟨"RScriptError", "R_SCRIPT_ERROR", msg⟩

/-! ## Session identity format (`session-manager.ts`, `uuid` package)

`isValidSessionId` is `typeof id === 'string' && uuidValidate(id) &&
id.length === 36`.  `uuidValidate` is the `uuid` package's `validate`:
a regex accepting the nil UUID or the grouped-hex shape with a version
nibble 1-5 and a variant nibble in [89ab], case-insensitive. -/

def hexDigitB (c : Char) : Bool :=
  c.isDigit || (('a' ≤ c) && (c ≤ 'f')) || (('A' ≤ c) && (c ≤ 'F'))

/-- Positional character test for the 36-character UUID shape
`xxxxxxxx-xxxx-Vxxx-Nxxx-xxxxxxxxxxxx`. -/
def uuidCharOk (i : Nat) (c : Char) : Bool :=
  if i == 8 || i == 13 || i == 18 || i == 23 then c == '-'
  else if i == 14 then ['1', '2', '3', '4', '5'].contains c
  else if i == 19 then ['8', '9', 'a', 'b', 'A', 'B'].contains c
  else hexDigitB c

def nilUuid : String := "00000000-0000-0000-0000-000000000000"

/-- The `uuid` package's `validate(str)`. -/
def uuidValidate (s : String) : Bool :=
  (s.data.length == 36 && s.data.enum.all fun ic => uuidCharOk ic.1 ic.2)
    || s == nilUuid

/-- `SessionManager.isValidSessionId` on an already-string value. -/
def isValidSessionId (s : String) : Bool :=
  uuidValidate s && (s.length == 36)

/-- `SessionManager.isValidSessionId` on an arbitrary JS value: the
`typeof sessionId === 'string'` conjunct rejects every non-string. -/
def isValidSessionIdJ : JVal → Bool
  | .str s => isValidSessionId s
  | _ => false

/-! ## Filesystem model

Paths are segment lists under an abstract root; `config.sessionsDir`
resolves to the abstract segment list `["sessions"]`.  `mkdir(p,
{recursive:true})` records `p` (a path exists when it is a segment-prefix
of some recorded directory, which models the ancestors `recursive:true`
creates); `writeFile` records the metadata record itself (JSON round-trip
modelled as identity). -/

abbrev FsPath := List String

structure Session where
  id : String
  name : String
  studyType : String
  effectMeasure : String
  analysisModel : String
  createdAt : String
  config : JVal

structure FsState where
  dirs : List FsPath
  files : List (FsPath × Session)

def emptyFs : FsState := ⟨[], []⟩

/-- Segment-prefix test between paths. -/
def segPre : FsPath → FsPath → Bool
  | [], _ => true
  | _ :: _, [] => false
  | a :: p, b :: q => a == b && segPre p q

/-- Does some recorded directory lie at or below `p`? -/
def coversPath : List FsPath → FsPath → Bool
  | [], _ => false
  | d :: rest, p => segPre p d || coversPath rest p

def FsState.dirExists (fs : FsState) (p : FsPath) : Bool :=
  coversPath fs.dirs p

def lookupFile : List (FsPath × Session) → FsPath → Option Session
  | [], _ => none
  | (q, s) :: rest, p => if q == p then some s else lookupFile rest p

def FsState.readFile (fs : FsState) (p : FsPath) : Option Session :=
  lookupFile fs.files p

/-- `fs.access(p)` succeeds when `p` is a directory or a file. -/
def FsState.accessOk (fs : FsState) (p : FsPath) : Bool :=
  fs.dirExists p || (fs.readFile p).isSome

inductive FsOp where
  | mkdirRec (p : FsPath)
  | writeSessionFile (p : FsPath) (s : Session)

def FsState.apply (fs : FsState) : FsOp → FsState
  | .mkdirRec p => { fs with dirs := p :: fs.dirs }
  | .writeSessionFile p s => { fs with files := (p, s) :: fs.files }

def FsState.applyAll (fs : FsState) (ops : List FsOp) : FsState :=
  ops.foldl FsState.apply fs

/-! ## Session store (`src/session-manager.ts`) -/

def sessionsDir : FsPath := ["sessions"]

/-- `SessionManager.getSessionPath`: validation failure on a malformed id,
otherwise `path.join(this.sessionsDir, sessionId)`. -/
def getSessionPath (sid : String) : Except AppError FsPath :=
  if isValidSessionId sid then .ok (sessionsDir ++ [sid])
  else .error (mkValidationError ("Invalid session ID format: " ++ sid))

/-- `SessionManager.sessionExists`: false (without throwing) on a malformed
id, otherwise an `fs.access` probe of the session directory. -/
def sessionExists (fs : FsState) (sid : String) : Bool :=
  if isValidSessionId sid then fs.accessOk (sessionsDir ++ [sid])
  else false

/-- `SessionManager.getSession`: validation failure on a malformed id; then
reads and parses `session.json`, every read/parse failure becoming a
`SessionError`. -/
def getSession (fs : FsState) (sid : String) : Except AppError Session :=
  if isValidSessionId sid then
    match fs.readFile (sessionsDir ++ [sid, "session.json"]) with
    | some s => .ok s
    | none => .error (mkSessionError ("Session not found: " ++ sid))
  else .error (mkValidationError ("Invalid session ID format: " ++ sid))

structure CreateParams where
  name : String
  studyType : String
  effectMeasure : String
  analysisModel : String
  config : JVal

/-- The `Session` value `createSession` builds (`uuidv4()` and
`new Date().toISOString()` are passed in as `sid` and `now`). -/
def mkSessionRecord (sid now : String) (d : CreateParams) : Session :=
  { id := sid, name := d.name, studyType := d.studyType,
    effectMeasure := d.effectMeasure, analysisModel := d.analysisModel,
    createdAt := now,
    config := if truthy d.config then d.config else .obj [] }

/-- The filesystem operations `createSession` performs, in program order:
session directory, then the data/results/processing sub-directories, then
the metadata record.  Each `await` between them is a suspension point. -/
def createSessionOps (sid : String) (sess : Session) : List FsOp :=
  [ .mkdirRec (sessionsDir ++ [sid]),
    .mkdirRec (sessionsDir ++ [sid, "data"]),
    .mkdirRec (sessionsDir ++ [sid, "results"]),
    .mkdirRec (sessionsDir ++ [sid, "processing"]),
    .writeSessionFile (sessionsDir ++ [sid, "session.json"]) (sess) ]

/-- `SessionManager.createSession`, run to completion: returns the session
value and the filesystem state at the `return` statement. -/
def createSession (fs : FsState) (sid now : String) (d : CreateParams) :
    Session × FsState :=
  let sess := mkSessionRecord sid now d
  (sess, fs.applyAll (createSessionOps sid sess))

/-! ## External process executor (`src/r-executor.ts`)

`executeRScript` validates its argument vector, spawns one `Rscript`
worker, accumulates stdout under a 10 MB cap, enforces a timeout with a
SIGTERM-then-grace-window handler, and classifies the result on close.
The worker's behaviour is a `Worker` record: its stdout data events in
order, its stderr, whether (and how) it exits before the timeout budget,
and whether a delivered SIGTERM makes it exit within the grace window. -/

def maxJsonSize : Nat := 10 * 1024 * 1024

def defaultTimeoutMs : Nat := 45000

/-- One element of the `args: string[]` vector; `nonString` models a
non-string value smuggled into the array. -/
inductive JsArg where
  | str (s : String)
  | nonString
deriving Repr, DecidableEq

/-- `arg.indexOf('\u0000') !== -1` (the second `\x00` test is the same
character). -/
def hasNulByte (s : String) : Bool :=
  s.data.any fun c => c == Char.ofNat 0

/-- The `/^[a-zA-Z0-9_]+$/` tool-name pattern. -/
def wordChar (c : Char) : Bool :=
  (('a' ≤ c) && (c ≤ 'z')) || (('A' ≤ c) && (c ≤ 'Z')) || c.isDigit || c == '_'

def toolNamePatternOk (s : String) : Bool :=
  !(s.data.isEmpty) && s.data.all wordChar

/-- `arg.includes('..')` : two consecutive dots somewhere in the string. -/
def containsDotDot : List Char → Bool
  | [] => false
  | [_] => false
  | a :: b :: rest => (a == '.' && b == '.') || containsDotDot (b :: rest)

def containsDotDotStr (s : String) : Bool :=
  containsDotDot s.data

/-- The body of `validateArguments`' loop for the argument at index `i`,
checks in source order: string type, NUL bytes, tool-name pattern (index
0), traversal sequence in the session path (index 2), 10 MB length cap. -/
def argCheck (i : Nat) (a : JsArg) : Except AppError Unit :=
  match a with
  | .nonString => .error (mkValidationError "All arguments must be strings")
  | .str s =>
    if hasNulByte s then
      .error (mkValidationError "Arguments contain null bytes")
    else if i == 0 && !(toolNamePatternOk s) then
      .error (mkValidationError "Invalid tool name format")
    else if i == 2 && containsDotDotStr s then
      .error (mkValidationError "Session path cannot contain \"..\" for security")
    else if s.length > maxJsonSize then
      .error (mkValidationError "Argument too long (max 10MB)")
    else .ok ()

def validateArgumentsFrom : Nat → List JsArg → Except AppError Unit
  | _, [] => .ok ()
  | i, a :: rest =>
    match argCheck i a with
    | .error e => .error e
    | .ok _ => validateArgumentsFrom (i + 1) rest

/-- `validateArguments(args)`. -/
def validateArguments (args : List JsArg) : Except AppError Unit :=
  validateArgumentsFrom 0 args

/-- Signals the executor can send to the worker (`rProcess.kill()`
defaults to SIGTERM). -/
inductive Sig where
  | term
  | kill
deriving Repr, DecidableEq

/-- Behaviour of one spawned worker process.  `exit = some code` means the
process delivers all its stdout chunks and closes with `code` inside the
timeout budget; `exit = none` means it is still running when the timeout
fires.  `exitsOnSigterm` says whether a delivered SIGTERM makes it exit
within the 5-second grace window. -/
structure Worker where
  chunks : List String
  stderr : String
  exit : Option Int
  exitsOnSigterm : Bool

/-- Classified completion of one `executeRScript` invocation; constructors
correspond one-to-one to the resolve/reject sites in the source. -/
inductive ExecOutcome where
  | validationError (e : AppError)
  | timeout (ms : Nat)
  | outputTooLarge
  | nonZeroExit (code : Int) (stderr : String)
  | malformedOutput
  | domainError (message : JVal)
  | success (v : JVal)

/-- Result of one invocation: the settled outcome, whether a worker was
spawned, every signal sent to it, and whether `JSON.parse` was applied to
the collected stdout. -/
structure ExecTrace where
  outcome : ExecOutcome
  spawned : Bool
  signals : List Sig
  parsedStdout : Bool

/-- The stdout `data` handler, folded over the chunks: accumulates
`outputSize`, and rejects (second component `true`) the first time the
accumulated size exceeds `maxJsonSize`; the oversized chunk is not
appended. -/
def pumpStdout : Nat → String → List String → String × Bool
  | _, acc, [] => (acc, false)
  | size, acc, c :: rest =>
    if size + c.length > maxJsonSize then (acc, true)
    else pumpStdout (size + c.length) (acc ++ c) rest

/-- The `close` handler for exit code `code` and collected stdout, given
`JSON.parse` as `parse` (`none` models a parse exception).  The in-`try`
size re-check throws into the same `catch` as a parse failure. -/
def closeOutcome (parse : String → Option JVal) (code : Int) (stdout stderr : String) :
    ExecOutcome :=
  if code != 0 then .nonZeroExit code stderr
  else if stdout.length > maxJsonSize then .malformedOutput
  else
    match parse stdout with
    | none => .malformedOutput
    | some v =>
      if isStrErrorVal (getField v "status") then
        .domainError (if truthy (getField v "message") then getField v "message"
                      else .str "Unknown R script error")
      else .success v

/-- `executeRScript(args, timeoutMs)` against a worker behaving as `w`.

On timeout the handler calls `rProcess.kill('SIGTERM')`; Node sets
`rProcess.killed` to `true` as soon as that signal is successfully sent to
the (still running) process, so the grace-window callback's
`if (!rProcess.killed)` guard is already false and the SIGKILL branch is
unreachable — the model sends no `Sig.kill`, mirroring the source. -/
def executeRScript (parse : String → Option JVal) (args : List JsArg)
    (timeoutMs : Nat) (w : Worker) : ExecTrace :=
  match validateArguments args with
  | .error e =>
    { outcome := .validationError e, spawned := false, signals := [],
      parsedStdout := false }
  | .ok _ =>
    match pumpStdout 0 "" w.chunks with
    | (_, true) =>
      { outcome := .outputTooLarge, spawned := true, signals := [.term],
        parsedStdout := false }
    | (stdout, false) =>
      match w.exit with
      | none =>
        { outcome := .timeout timeoutMs, spawned := true, signals := [.term],
          parsedStdout := false }
      | some code =>
        { outcome := closeOutcome parse code stdout w.stderr, spawned := true,
          signals := [],
          parsedStdout := code == 0 && !(stdout.length > maxJsonSize) }

/-- Has the worker exited by the end of the grace window following the
timeout?  It has iff it exited on its own or a delivered SIGTERM makes it
exit. -/
def exitedByGraceEnd (w : Worker) : Bool :=
  w.exit.isSome || w.exitsOnSigterm

/-! ## JSON.stringify (compact form, as used for the worker argument) -/

def hexNibble (n : Nat) : Char :=
  if n < 10 then Char.ofNat (48 + n) else Char.ofNat (87 + (n % 16))

def jsonEscapeChar (c : Char) : String :=
  if c == '"' then "\\\""
  else if c == '\\' then "\\\\"
  else if c == '\n' then "\\n"
  else if c == '\r' then "\\r"
  else if c == '\t' then "\\t"
  else if c.toNat == 8 then "\\b"
  else if c.toNat == 12 then "\\f"
  else if c.toNat < 32 then
    "\\u00" ++ String.singleton (hexNibble (c.toNat / 16))
      ++ String.singleton (hexNibble (c.toNat % 16))
  else String.singleton c

def jsonQuote (s : String) : String :=
  "\"" ++ (s.data.foldl (fun acc c => acc ++ jsonEscapeChar c) "") ++ "\""

mutual

/-- `JSON.stringify(v)`: `none` models the `undefined` result on a bare
`undefined` input.  Number formatting is abstracted to `Rat`'s printing. -/
def jsonStringify : JVal → Option String
  | .undefVal => none
  | .null => some "null"
  | .bool b => some (cond b "true" "false")
  | .num q => some (toString q)
  | .str s => some (jsonQuote s)
  | .arr xs => some ("[" ++ jsonStringifyArr xs ++ "]")
  | .obj fields => some ("\x7b" ++ jsonStringifyObj fields ++ "\x7d")

/-- Array elements: `undefined` renders as `null`, elements are
comma-separated. -/
def jsonStringifyArr : List JVal → String
  | [] => ""
  | [x] => (jsonStringify x).getD "null"
  | x :: y :: rest =>
    (jsonStringify x).getD "null" ++ "," ++ jsonStringifyArr (y :: rest)

/-- Object fields: `undefined`-valued fields are skipped. -/
def jsonStringifyObj : List (String × JVal) → String
  | [] => ""
  | (k, v) :: rest =>
    match jsonStringify v with
    | none => jsonStringifyObj rest
    | some sv =>
      match rest with
      | [] => jsonQuote k ++ ":" ++ sv
      | _ =>
        let tail := jsonStringifyObj rest
        if tail == "" then jsonQuote k ++ ":" ++ sv
        else jsonQuote k ++ ":" ++ sv ++ "," ++ tail

end

/-! ## Tool dispatcher (`src/index.ts`)

The `CallToolRequestSchema` handler: registry lookup, per-tool parameter
validation, then either the health-check probe, session creation, or the
default branch (session existence check, path resolution, executor call).
Every thrown error is caught and converted by `handleError` into an error
envelope. -/

def isUndef : JVal → Bool
  | .undefVal => true
  | _ => false

def asString : JVal → String
  | .str s => s
  | _ => ""

def ratOf : JVal → Rat
  | .num q => q
  | _ => 0

/-- `xs.includes(v)` for a closed string domain: true iff `v` is exactly
one of the strings. -/
def includesStr (xs : List String) (v : JVal) : Bool :=
  match v with
  | .str s => xs.contains s
  | _ => false

abbrev Validator := JVal → Except AppError Unit

/-- `health_check` validator: optional boolean `detailed`. -/
def vHealthCheck : Validator := fun args =>
  let d := getField args "detailed"
  if !(isUndef d) && !(isBool d) then
    .error (mkValidationError "Parameter 'detailed' must be a boolean")
  else .ok ()

/-- `initialize_meta_analysis` validator. -/
def vInitMeta : Validator := fun args =>
  if !(truthy args) then .error (mkValidationError "Arguments are required")
  else if !(truthy (getField args "name")) || !(isString (getField args "name")) then
    .error (mkValidationError "Parameter 'name' is required and must be a string")
  else if !(includesStr ["clinical_trial", "observational", "diagnostic"]
      (getField args "study_type")) then
    .error (mkValidationError "Invalid study_type")
  else if !(includesStr ["OR", "RR", "MD", "SMD", "HR", "PROP", "MEAN"]
      (getField args "effect_measure")) then
    .error (mkValidationError "Invalid effect_measure")
  else if !(includesStr ["fixed", "random", "auto"]
      (getField args "analysis_model")) then
    .error (mkValidationError "Invalid analysis_model")
  else .ok ()

/-- The shared `session_id` presence/type check. -/
def sessionIdCheck (args : JVal) : Except AppError Unit :=
  let f := getField args "session_id"
  if !(truthy f) || !(isString f) then
    .error (mkValidationError "Parameter 'session_id' is required and must be a string")
  else .ok ()

/-- `upload_study_data` validator. -/
def vUpload : Validator := fun args =>
  if !(truthy args) then .error (mkValidationError "Arguments are required")
  else
    match sessionIdCheck args with
    | .error e => .error e
    | .ok _ =>
      if !(includesStr ["csv", "excel", "revman"] (getField args "data_format")) then
        .error (mkValidationError "Invalid data_format")
      else if !(truthy (getField args "data_content"))
          || !(isString (getField args "data_content")) then
        .error (mkValidationError "Parameter 'data_content' is required and must be a string")
      else if !(includesStr ["basic", "comprehensive"]
          (getField args "validation_level")) then
        .error (mkValidationError "Invalid validation_level")
      else .ok ()

/-- The `forEach` over optional boolean parameters. -/
def optionalBoolCheck (args : JVal) : List String → Except AppError Unit
  | [] => .ok ()
  | p :: rest =>
    if !(isUndef (getField args p)) && !(isBool (getField args p)) then
      .error (mkValidationError ("Parameter '" ++ p ++ "' must be a boolean"))
    else optionalBoolCheck args rest

/-- `perform_meta_analysis` validator. -/
def vPerform : Validator := fun args =>
  if !(truthy args) then .error (mkValidationError "Arguments are required")
  else
    match sessionIdCheck args with
    | .error e => .error e
    | .ok _ =>
      optionalBoolCheck args
        ["heterogeneity_test", "publication_bias", "sensitivity_analysis"]

/-- `generate_forest_plot` validator. -/
def vForest : Validator := fun args =>
  if !(truthy args) then .error (mkValidationError "Arguments are required")
  else
    match sessionIdCheck args with
    | .error e => .error e
    | .ok _ =>
      if !(includesStr ["classic", "modern", "journal_specific"]
          (getField args "plot_style")) then
        .error (mkValidationError "Invalid plot_style")
      else
        let cl := getField args "confidence_level"
        if !(isUndef cl) then
          if !(isNum cl) || ratOf cl ≤ 0 || 1 ≤ ratOf cl then
            .error (mkValidationError
              "Parameter 'confidence_level' must be a number between 0 and 1")
          else .ok ()
        else .ok ()

/-- The `forEach` over the `methods` array elements. -/
def methodsCheck : List JVal → Except AppError Unit
  | [] => .ok ()
  | m :: rest =>
    if !(includesStr ["funnel_plot", "egger_test", "begg_test", "trim_fill"] m) then
      .error (mkValidationError ("Invalid method: " ++ jsDisplay m))
    else methodsCheck rest

/-- `assess_publication_bias` validator. -/
def vBias : Validator := fun args =>
  if !(truthy args) then .error (mkValidationError "Arguments are required")
  else
    match sessionIdCheck args with
    | .error e => .error e
    | .ok _ =>
      let m := getField args "methods"
      if !(truthy m) || !(isArr m) then
        .error (mkValidationError "Parameter 'methods' is required and must be an array")
      else
        match m with
        | .arr xs => methodsCheck xs
        | _ => .ok ()

/-- `generate_report` validator. -/
def vReport : Validator := fun args =>
  if !(truthy args) then .error (mkValidationError "Arguments are required")
  else
    match sessionIdCheck args with
    | .error e => .error e
    | .ok _ =>
      if !(includesStr ["html", "pdf", "word"] (getField args "format")) then
        .error (mkValidationError "Invalid format")
      else
        let ic := getField args "include_code"
        if !(isUndef ic) && !(isBool ic) then
          .error (mkValidationError "Parameter 'include_code' must be a boolean")
        else .ok ()

/-- `get_session_status` validator. -/
def vStatus : Validator := fun args =>
  if !(truthy args) then .error (mkValidationError "Arguments are required")
  else sessionIdCheck args

/-- Own properties of the `toolValidationSchemas` object literal. -/
def lookupOwnValidator (name : String) : Option Validator :=
  match name with
  | "health_check" => some vHealthCheck
  | "initialize_meta_analysis" => some vInitMeta
  | "upload_study_data" => some vUpload
  | "perform_meta_analysis" => some vPerform
  | "generate_forest_plot" => some vForest
  | "assess_publication_bias" => some vBias
  | "generate_report" => some vReport
  | "get_session_status" => some vStatus
  | _ => none

/-- Function-valued properties every plain object inherits from
`Object.prototype` in Node; `toolValidationSchemas[name]` finds these even
though they are not registered tools, and `!toolValidationSchemas[name]`
does not reject them. -/
def objectProtoFnNames : List String :=
  ["constructor", "hasOwnProperty", "isPrototypeOf", "propertyIsEnumerable",
   "toLocaleString", "toString", "valueOf",
   "__defineGetter__", "__defineSetter__", "__lookupGetter__", "__lookupSetter__"]

/-- Result of the JS property lookup `toolValidationSchemas[name]`,
including the prototype chain: an own validator, an inherited
`Object.prototype` function (truthy, callable, does not throw on these
argument bags), the inherited `__proto__` object (truthy but not
callable), or `undefined`. -/
inductive RegLookup where
  | own (v : Validator)
  | protoFn
  | protoObj
  | absent

def registryLookup (name : String) : RegLookup :=
  match lookupOwnValidator name with
  | some v => .own v
  | none =>
    if objectProtoFnNames.contains name then .protoFn
    else if name == "__proto__" then .protoObj
    else .absent

/-- The response envelope the handler returns: a success payload (the
value later `JSON.stringify`-ed into `content[0].text`) or the
`handleError` error object's message and code. -/
inductive Envelope where
  | ok (payload : JVal)
  | err (message code : String)

/-- `handleError` on an `AppError`. -/
def handleAppError (e : AppError) : Envelope :=
  .err e.message e.code

structure DispatchEnv where
  fs : FsState
  newSessionId : String
  now : String
  worker : Worker
  probe1 : Worker
  probe2 : Worker
  parse : String → Option JVal

structure DispatchResult where
  envelope : Envelope
  spawns : Nat

def isSuccessOutcome : ExecOutcome → Bool
  | .success _ => true
  | _ => false

/-- Mapping from a settled executor outcome to the response envelope: a
resolved value becomes the success payload, every reject is an
`RScriptError`/`ValidationError` caught by the handler's `catch` and
converted by `handleError`.  The engine-specific suffix of the JSON parse
error message is abstracted away. -/
def outcomeToEnvelope : ExecOutcome → Envelope
  | .success v => .ok v
  | .validationError e => handleAppError e
  | .timeout ms =>
    handleAppError (mkRScriptError ("R process timed out after " ++ toString ms ++ "ms"))
  | .outputTooLarge =>
    handleAppError (mkRScriptError
      ("R script output exceeded maximum size of " ++ toString maxJsonSize ++ " bytes"))
  | .nonZeroExit c stderr =>
    handleAppError (mkRScriptError
      ("R script exited with code " ++ toString c ++ ": " ++ stderr))
  | .malformedOutput =>
    handleAppError (mkRScriptError "Error parsing R script output")
  | .domainError m => handleAppError (mkRScriptError (jsDisplay m))

/-- `path.join` rendering of a model path (abstract root elided). -/
def renderPath (p : FsPath) : String :=
  String.intercalate "/" p

/-- `sessionExists` on the raw JS value `args.session_id`
(`isValidSessionId`'s `typeof` check rejects non-strings). -/
def sessionExistsJ (fs : FsState) (v : JVal) : Bool :=
  match v with
  | .str s => sessionExists fs s
  | _ => false

/-- `getSessionPath` on the raw JS value. -/
def getSessionPathJ (v : JVal) : Except AppError FsPath :=
  match v with
  | .str s => getSessionPath s
  | w => .error (mkValidationError ("Invalid session ID format: " ++ jsDisplay w))

def spawnCount (tr : ExecTrace) : Nat :=
  if tr.spawned then 1 else 0

def probeSessionId : String := "00000000-0000-4000-8000-000000000000"

/-- `process.cwd()`, abstracted. -/
def processCwdStr : String := "."

def healthEnvelope (rAvailable : Bool) : Envelope :=
  .ok (.obj [("status", .str "success"),
             ("message", .str "Meta-analysis MVP server is healthy"),
             ("version", .str "1.0.0"),
             ("r_available", .bool rAvailable)])

/-- The `health_check` branch: probes R with `get_session_status` on a
fixed session id, falling back to a `health_check` no-op call. -/
def healthCheckCall (env : DispatchEnv) : DispatchResult :=
  let a1 := [JsArg.str "get_session_status",
             (match jsonStringify (.obj [("session_id", .str probeSessionId)]) with
              | some s => JsArg.str s
              | none => JsArg.nonString),
             JsArg.str (renderPath (sessionsDir ++ [probeSessionId]))]
  let t1 := executeRScript env.parse a1 2000 env.probe1
  if isSuccessOutcome t1.outcome then
    { envelope := healthEnvelope true, spawns := spawnCount t1 }
  else
    let a2 := [JsArg.str "health_check",
               (match jsonStringify (.obj []) with
                | some s => JsArg.str s
                | none => JsArg.nonString),
               JsArg.str processCwdStr]
    let t2 := executeRScript env.parse a2 2000 env.probe2
    { envelope := healthEnvelope (isSuccessOutcome t2.outcome),
      spawns := spawnCount t1 + spawnCount t2 }

/-- The `initialize_meta_analysis` branch: `createSession` with the
validated fields (the whole bag is stored as `config`). -/
def initMetaCall (env : DispatchEnv) (args : JVal) : DispatchResult :=
  let d : CreateParams :=
    { name := asString (getField args "name"),
      studyType := asString (getField args "study_type"),
      effectMeasure := asString (getField args "effect_measure"),
      analysisModel := asString (getField args "analysis_model"),
      config := args }
  let sess := (createSession env.fs env.newSessionId env.now d).1
  { envelope := .ok (.obj [("status", .str "success"),
                           ("session_id", .str sess.id),
                           ("message", .str ("Initialized meta-analysis session: " ++ sess.id))]),
    spawns := 0 }

/-- The `default` branch for every session-scoped tool: existence check,
path resolution, then the executor call with
`[name, JSON.stringify(args), sessionPath]`. -/
def defaultToolCall (env : DispatchEnv) (name : String) (args : JVal) : DispatchResult :=
  let sidVal := getField args "session_id"
  if sessionExistsJ env.fs sidVal then
    match getSessionPathJ sidVal with
    | .error e => { envelope := handleAppError e, spawns := 0 }
    | .ok p =>
      let execArgs := [JsArg.str name,
                       (match jsonStringify args with
                        | some s => JsArg.str s
                        | none => JsArg.nonString),
                       JsArg.str (renderPath p)]
      let tr := executeRScript env.parse execArgs defaultTimeoutMs env.worker
      { envelope := outcomeToEnvelope tr.outcome, spawns := spawnCount tr }
  else
    { envelope := handleAppError (mkValidationError ("Session not found: " ++ jsDisplay sidVal)),
      spawns := 0 }

/-- The `switch (name)` after parameter validation. -/
def afterValidation (env : DispatchEnv) (name : String) (args : JVal) : DispatchResult :=
  if name == "health_check" then healthCheckCall env
  else if name == "initialize_meta_analysis" then initMetaCall env args
  else defaultToolCall env name args

/-- The full `CallToolRequestSchema` handler for one request. -/
def handleToolCall (env : DispatchEnv) (name : String) (args : JVal) : DispatchResult :=
  match registryLookup name with
  | .absent =>
    { envelope := handleAppError (mkValidationError ("Unknown tool: " ++ name)),
      spawns := 0 }
  | .protoObj =>
    { envelope := .err "toolValidationSchemas[name] is not a function" "INTERNAL_ERROR",
      spawns := 0 }
  | .protoFn => afterValidation env name args
  | .own v =>
    match v args with
    | .error e => { envelope := handleAppError e, spawns := 0 }
    | .ok _ => afterValidation env name args

/-- The session-scoped tools: every registered tool except the
session-creating one and `health_check`. -/
def sessionScopedTools : List String :=
  ["upload_study_data", "perform_meta_analysis", "generate_forest_plot",
   "assess_publication_bias", "generate_report", "get_session_status"]

/-- The declared tool registry (the keys of `toolValidationSchemas`,
identical to the `ListToolsRequestSchema` tool list). -/
def registeredToolNames : List String :=
  ["health_check", "initialize_meta_analysis", "upload_study_data",
   "perform_meta_analysis", "generate_forest_plot", "assess_publication_bias",
   "generate_report", "get_session_status"]

/-! ## R entry point (`scripts/entry/mcp_tools.R`)

After parsing its CLI arguments the dispatcher script executes
`json_args$session_path <- session_path` — overwriting any caller-supplied
`session_path` field with the path the Node dispatcher resolved — before
any tool handler is sourced into action.  `$<-` replaces the first
matching element of the named list in place, or appends. -/

def setFieldR : List (String × JVal) → String → JVal → List (String × JVal)
  | [], k, v => [(k, v)]
  | (k0, v0) :: rest, k, v =>
    if k0 == k then (k0, v) :: rest
    else (k0, v0) :: setFieldR rest k v

/-- The argument bag every tool handler receives:
`json_args$session_path <- session_path` applied to the decoded bag. -/
def rEntryArgs (jsonArgs : List (String × JVal)) (sessionPath : String) :
    List (String × JVal) :=
  setFieldR jsonArgs "session_path" (.str sessionPath)

/-! ## Helper lemmas -/

theorem segPre_self_append (p q : FsPath) : segPre p (p ++ q) = true := by
  induction p with
  | nil => simp [segPre]
  | cons a t ih => simp [segPre, ih]

theorem segPre_refl (p : FsPath) : segPre p p = true := by
  induction p with
  | nil => simp [segPre]
  | cons a t ih => simp [segPre, ih]

theorem segPre_append_last (p : FsPath) (a b : String) :
    segPre (p ++ [a]) (p ++ [a, b]) = true := by
  induction p with
  | nil => simp [segPre]
  | cons x t ih => simp [segPre, ih]

/-! ## Claims about the session store -/

/-- C1: for every string that fails the session identity format,
`sessionExists` returns false (it is a total function of the store state,
so it cannot throw) and `getSessionPath` returns exactly the
"Invalid session ID format" `ValidationError` — no other error and no
path. -/
theorem c1_identity_rejection_total (fs : FsState) (s : String)
    (h : isValidSessionId s = false) :
    sessionExists fs s = false ∧
    getSessionPath s =
      .error (mkValidationError ("Invalid session ID format: " ++ s)) := by
  refine ⟨?_, ?_⟩
  · simp [sessionExists, h]
  · simp [getSessionPath, h]

theorem c1_identity_rejection_total_witness :
    isValidSessionId "../../etc/passwd" = false ∧
    (sessionExists emptyFs "../../etc/passwd" = false ∧
     getSessionPath "../../etc/passwd" =
       .error (mkValidationError ("Invalid session ID format: " ++ "../../etc/passwd"))) :=
  ⟨by decide, c1_identity_rejection_total emptyFs "../../etc/passwd" (by decide)⟩

/-- C7 (counterexample): it is NOT the case that every intermediate state
of `createSession` in which `sessionExists` already answers true also has
the three sub-area directories and the metadata record: after the first
`await`-separated operation (the session directory `mkdir`), a concurrent
`sessionExists` observes the directory while `data/`, `results/`,
`processing/` and `session.json` do not exist yet. -/
theorem c7_counterexample :
    ¬ (∀ (sid : String) (sess : Session) (fs0 : FsState) (k : Nat),
        isValidSessionId sid = true →
        sessionExists (fs0.applyAll ((createSessionOps sid sess).take k)) sid = true →
        ((fs0.applyAll ((createSessionOps sid sess).take k)).dirExists
            (sessionsDir ++ [sid, "data"]) = true ∧
         (fs0.applyAll ((createSessionOps sid sess).take k)).dirExists
            (sessionsDir ++ [sid, "results"]) = true ∧
         (fs0.applyAll ((createSessionOps sid sess).take k)).dirExists
            (sessionsDir ++ [sid, "processing"]) = true ∧
         ((fs0.applyAll ((createSessionOps sid sess).take k)).readFile
            (sessionsDir ++ [sid, "session.json"])).isSome = true)) := by
  intro h
  have h2 := h "00000000-0000-4000-8000-000000000000"
    ⟨"00000000-0000-4000-8000-000000000000", "X", "clinical_trial", "OR",
     "random", "2024-01-01T00:00:00.000Z", .obj []⟩
    emptyFs 1 (by decide) (by decide)
  exact absurd h2.1 (by decide)

/-- C7 (amended): `createSession` performs all of its filesystem
operations before returning, so at the return point the session
directory, all three sub-area directories and the metadata record exist
and `sessionExists` answers true; the all-sub-areas-present guarantee
holds for observers from the return on, not at interleaved points during
creation. -/
theorem c7_amended_eager_creation (fs0 : FsState) (d : CreateParams)
    (sid now : String) (h : isValidSessionId sid = true) :
    sessionExists (createSession fs0 sid now d).2 sid = true ∧
    (createSession fs0 sid now d).2.dirExists (sessionsDir ++ [sid, "data"]) = true ∧
    (createSession fs0 sid now d).2.dirExists (sessionsDir ++ [sid, "results"]) = true ∧
    (createSession fs0 sid now d).2.dirExists (sessionsDir ++ [sid, "processing"]) = true ∧
    (createSession fs0 sid now d).2.readFile (sessionsDir ++ [sid, "session.json"]) =
      some (mkSessionRecord sid now d) := by
  refine ⟨?_, ?_, ?_, ?_, ?_⟩ <;>
    simp [createSession, createSessionOps, FsState.applyAll, FsState.apply,
      sessionExists, h, FsState.accessOk, FsState.dirExists, coversPath,
      FsState.readFile, lookupFile, segPre_self_append, segPre_refl, segPre_append_last]

theorem c7_amended_eager_creation_witness :
    isValidSessionId "00000000-0000-4000-8000-000000000000" = true ∧
    (sessionExists (createSession emptyFs "00000000-0000-4000-8000-000000000000" "2024-01-01T00:00:00.000Z"
        ⟨"X", "clinical_trial", "OR", "random", .obj []⟩).2
        "00000000-0000-4000-8000-000000000000" = true ∧
     (createSession emptyFs "00000000-0000-4000-8000-000000000000" "2024-01-01T00:00:00.000Z"
        ⟨"X", "clinical_trial", "OR", "random", .obj []⟩).2.dirExists
        (sessionsDir ++ ["00000000-0000-4000-8000-000000000000", "data"]) = true ∧
     (createSession emptyFs "00000000-0000-4000-8000-000000000000" "2024-01-01T00:00:00.000Z"
        ⟨"X", "clinical_trial", "OR", "random", .obj []⟩).2.dirExists
        (sessionsDir ++ ["00000000-0000-4000-8000-000000000000", "results"]) = true ∧
     (createSession emptyFs "00000000-0000-4000-8000-000000000000" "2024-01-01T00:00:00.000Z"
        ⟨"X", "clinical_trial", "OR", "random", .obj []⟩).2.dirExists
        (sessionsDir ++ ["00000000-0000-4000-8000-000000000000", "processing"]) = true ∧
     (createSession emptyFs "00000000-0000-4000-8000-000000000000" "2024-01-01T00:00:00.000Z"
        ⟨"X", "clinical_trial", "OR", "random", .obj []⟩).2.readFile
        (sessionsDir ++ ["00000000-0000-4000-8000-000000000000", "session.json"]) =
       some (mkSessionRecord "00000000-0000-4000-8000-000000000000" "2024-01-01T00:00:00.000Z"
        ⟨"X", "clinical_trial", "OR", "random", .obj []⟩)) :=
  ⟨by decide,
   c7_amended_eager_creation emptyFs ⟨"X", "clinical_trial", "OR", "random", .obj []⟩
     "00000000-0000-4000-8000-000000000000" "2024-01-01T00:00:00.000Z" (by decide)⟩

/-- C8: `createSession` followed immediately by `sessionExists` on the
returned identifier yields true, and `getSession` on that identifier
yields a record whose `name` equals the name given to `createSession`
(the generated `uuidv4()` identifier satisfies the identity format,
supplied here as the hypothesis on `sid`). -/
theorem c8_roundtrip_session_creation (fs0 : FsState) (d : CreateParams)
    (sid now : String) (h : isValidSessionId sid = true) :
    sessionExists (createSession fs0 sid now d).2 sid = true ∧
    getSession (createSession fs0 sid now d).2 sid =
      .ok (createSession fs0 sid now d).1 ∧
    (createSession fs0 sid now d).1.name = d.name := by
  refine ⟨?_, ?_, rfl⟩
  · simp [createSession, createSessionOps, FsState.applyAll, FsState.apply,
      sessionExists, h, FsState.accessOk, FsState.dirExists, coversPath,
      segPre_self_append, segPre_refl, segPre_append_last]
  · simp [createSession, createSessionOps, FsState.applyAll, FsState.apply,
      getSession, h, FsState.readFile, lookupFile]

theorem c8_roundtrip_session_creation_witness :
    isValidSessionId "00000000-0000-4000-8000-000000000000" = true ∧
    (sessionExists (createSession emptyFs "00000000-0000-4000-8000-000000000000" "t"
        ⟨"X", "clinical_trial", "OR", "random", .undefVal⟩).2
        "00000000-0000-4000-8000-000000000000" = true ∧
     getSession (createSession emptyFs "00000000-0000-4000-8000-000000000000" "t"
        ⟨"X", "clinical_trial", "OR", "random", .undefVal⟩).2
        "00000000-0000-4000-8000-000000000000" =
       .ok (createSession emptyFs "00000000-0000-4000-8000-000000000000" "t"
        ⟨"X", "clinical_trial", "OR", "random", .undefVal⟩).1 ∧
     (createSession emptyFs "00000000-0000-4000-8000-000000000000" "t"
        ⟨"X", "clinical_trial", "OR", "random", .undefVal⟩).1.name = "X") :=
  ⟨by decide,
   c8_roundtrip_session_creation emptyFs ⟨"X", "clinical_trial", "OR", "random", .undefVal⟩
     "00000000-0000-4000-8000-000000000000" "t" (by decide)⟩

/-! ## Executor lemmas -/

theorem argCheck_error_of_bad (i : Nat) (a : JsArg)
    (h : a = .nonString ∨
      (∃ s, a = .str s ∧
        (hasNulByte s = true ∨ (i = 0 ∧ toolNamePatternOk s = false) ∨
         (i = 2 ∧ containsDotDotStr s = true) ∨ s.length > maxJsonSize))) :
    argCheck i a ≠ .ok () := by
  rcases h with rfl | ⟨s, rfl, hbad⟩
  · simp [argCheck]
  · rcases hbad with h1 | ⟨rfl, h2⟩ | ⟨rfl, h3⟩ | h4
    · simp [argCheck, h1]
    · by_cases hn : hasNulByte s = true <;> simp [argCheck, hn, h2]
    · by_cases hn : hasNulByte s = true <;> simp [argCheck, hn, h3]
    · by_cases hn : hasNulByte s = true
      · simp [argCheck, hn]
      · by_cases hp : (i == 0 && !(toolNamePatternOk s)) = true
        · simp [argCheck, hn, hp]
        · by_cases hd : (i == 2 && containsDotDotStr s) = true <;>
            simp [argCheck, hn, hp, hd, h4]

theorem validateArgumentsFrom_ok (args : List JsArg) : ∀ (i : Nat),
    validateArgumentsFrom i args = .ok () →
    ∀ j a, args.get? j = some a → argCheck (i + j) a = .ok () := by
  induction args with
  | nil => intro i _ j a hj; simp [List.get?] at hj
  | cons b rest ih =>
    intro i h j a hj
    have hsplit : argCheck i b = .ok () ∧ validateArgumentsFrom (i + 1) rest = .ok () := by
      revert h
      simp only [validateArgumentsFrom]
      cases hc : argCheck i b with
      | error e => intro h; exact absurd h (by simp)
      | ok u => cases u; intro h; exact ⟨rfl, h⟩
    cases j with
    | zero =>
      simp [List.get?] at hj
      simpa [hj] using hsplit.1
    | succ j0 =>
      have := ih (i + 1) hsplit.2 j0 a (by simpa [List.get?] using hj)
      simpa [Nat.add_comm, Nat.add_left_comm, Nat.add_assoc] using this

/-- `pumpStdout` flags an overflow exactly when some prefix of the chunk
stream accumulates past the cap. -/
theorem pump_exceeded_iff (chunks : List String) : ∀ (size : Nat) (acc : String),
    size ≤ maxJsonSize →
    ((pumpStdout size acc chunks).2 = true ↔
      ∃ k, maxJsonSize < size + ((chunks.take k).map String.length).sum) := by
  induction chunks with
  | nil =>
    intro size acc hs
    simp [pumpStdout]
    omega
  | cons c rest ih =>
    intro size acc hs
    by_cases hgt : size + c.length > maxJsonSize
    · simp only [pumpStdout, if_pos hgt]
      constructor
      · intro _
        exact ⟨1, by simpa using hgt⟩
      · intro _; trivial
    · simp only [pumpStdout, if_neg hgt]
      rw [ih (size + c.length) (acc ++ c) (by omega)]
      constructor
      · rintro ⟨k, hk⟩
        refine ⟨k + 1, ?_⟩
        simp only [List.take_succ_cons, List.map_cons, List.sum_cons]
        omega
      · rintro ⟨k, hk⟩
        cases k with
        | zero => simp at hk; omega
        | succ k0 =>
          refine ⟨k0, ?_⟩
          simp only [List.take_succ_cons, List.map_cons, List.sum_cons] at hk
          omega

/-- When no prefix overflows, the collected stdout stays within the cap. -/
theorem pump_final_len (chunks : List String) : ∀ (size : Nat) (acc : String),
    (pumpStdout size acc chunks).2 = false →
    (pumpStdout size acc chunks).1.length + size ≤ acc.length + maxJsonSize ∨
      (pumpStdout size acc chunks).1 = acc := by
  induction chunks with
  | nil => intro size acc _; right; rfl
  | cons c rest ih =>
    intro size acc hflag
    by_cases hgt : size + c.length > maxJsonSize
    · simp [pumpStdout, if_pos hgt] at hflag
    · simp only [pumpStdout, if_neg hgt] at hflag ⊢
      rcases ih (size + c.length) (acc ++ c) hflag with h | h
      · left
        simp [String.length_append] at h
        omega
      · left
        rw [h]
        simp [String.length_append]
        omega

theorem pump_top_len (chunks : List String)
    (h : (pumpStdout 0 "" chunks).2 = false) :
    (pumpStdout 0 "" chunks).1.length ≤ maxJsonSize := by
  rcases pump_final_len chunks 0 "" h with h2 | h2
  · simpa using h2
  · simp [h2]

/-! ## Claims about the executor -/

/-- C3: any argument vector containing a non-string, an embedded NUL
byte, a tool-name argument (index 0) outside `[a-zA-Z0-9_]+`, a session
path argument (index 2) containing "..", or an over-long argument makes
`executeRScript` fail with a `ValidationError` before any worker process
is started. -/
theorem c3_preflight_argument_validation (parse : String → Option JVal)
    (args : List JsArg) (t : Nat) (w : Worker)
    (h : (∃ i, args.get? i = some .nonString) ∨
         (∃ i s, args.get? i = some (.str s) ∧ hasNulByte s = true) ∨
         (∃ s, args.get? 0 = some (.str s) ∧ toolNamePatternOk s = false) ∨
         (∃ s, args.get? 2 = some (.str s) ∧ containsDotDotStr s = true) ∨
         (∃ i s, args.get? i = some (.str s) ∧ s.length > maxJsonSize)) :
    (∃ e, (executeRScript parse args t w).outcome = .validationError e) ∧
    (executeRScript parse args t w).spawned = false := by
  have hne : validateArguments args ≠ .ok () := by
    intro hok
    have hall := validateArgumentsFrom_ok args 0 hok
    rcases h with ⟨i, hi⟩ | ⟨i, s, hi, hs⟩ | ⟨s, hi, hs⟩ | ⟨s, hi, hs⟩ | ⟨i, s, hi, hs⟩
    · exact argCheck_error_of_bad (0 + i) _ (Or.inl rfl) (hall i _ hi)
    · exact argCheck_error_of_bad (0 + i) _ (Or.inr ⟨s, rfl, Or.inl hs⟩) (hall i _ hi)
    · exact argCheck_error_of_bad (0 + 0) _
        (Or.inr ⟨s, rfl, Or.inr (Or.inl ⟨rfl, hs⟩)⟩) (hall 0 _ hi)
    · exact argCheck_error_of_bad (0 + 2) _
        (Or.inr ⟨s, rfl, Or.inr (Or.inr (Or.inl ⟨by omega, hs⟩))⟩) (hall 2 _ hi)
    · exact argCheck_error_of_bad (0 + i) _
        (Or.inr ⟨s, rfl, Or.inr (Or.inr (Or.inr hs))⟩) (hall i _ hi)
  cases hv : validateArguments args with
  | error e => exact ⟨⟨e, by simp [executeRScript, hv]⟩, by simp [executeRScript, hv]⟩
  | ok u => cases u; exact absurd hv hne

theorem c3_preflight_argument_validation_witness :
    ([JsArg.str "rm -rf /"].get? 0 = some (.str "rm -rf /") ∧
      toolNamePatternOk "rm -rf /" = false) ∧
    ((∃ e, (executeRScript (fun _ => none) [JsArg.str "rm -rf /"] 45000
        ⟨[], "", some 0, true⟩).outcome = .validationError e) ∧
     (executeRScript (fun _ => none) [JsArg.str "rm -rf /"] 45000
        ⟨[], "", some 0, true⟩).spawned = false) :=
  ⟨⟨by decide, by decide⟩,
   c3_preflight_argument_validation (fun _ => none) [JsArg.str "rm -rf /"] 45000
     ⟨[], "", some 0, true⟩ (Or.inr (Or.inr (Or.inl ⟨"rm -rf /", by decide, by decide⟩)))⟩

/-- C4 (code evaluated at the failing input): for a worker that never
exits and ignores SIGTERM, the timed-out invocation does settle as a
Timeout failure and SIGTERM is sent, but — because the grace-window
callback tests `rProcess.killed`, which Node sets to true as soon as the
SIGTERM was successfully *sent* — SIGKILL is never sent even though the
process has not exited by the end of the grace window, contradicting the
claimed (and comment-documented) force-kill. -/
theorem c4_timeout_graceful_then_forced_kill_bug :
    (executeRScript (fun _ => none) [JsArg.str "perform_meta_analysis"] 45000
       ⟨[], "", none, false⟩).outcome = .timeout 45000 ∧
    (executeRScript (fun _ => none) [JsArg.str "perform_meta_analysis"] 45000
       ⟨[], "", none, false⟩).signals = [.term] ∧
    Sig.kill ∉ (executeRScript (fun _ => none) [JsArg.str "perform_meta_analysis"] 45000
       ⟨[], "", none, false⟩).signals ∧
    exitedByGraceEnd ⟨[], "", none, false⟩ = false := by
  refine ⟨rfl, rfl, ?_, rfl⟩
  decide

/-- C5: if the accumulated stdout exceeds the 10 MB cap at any prefix of
the worker's output stream, the invocation settles as the
output-too-large failure, the worker is killed, and the collected stdout
is never parsed (and hence never returned). -/
theorem c5_output_size_cap (parse : String → Option JVal) (args : List JsArg)
    (t : Nat) (w : Worker)
    (hval : validateArguments args = .ok ())
    (hex : ∃ k, maxJsonSize < ((w.chunks.take k).map String.length).sum) :
    (executeRScript parse args t w).outcome = .outputTooLarge ∧
    (executeRScript parse args t w).parsedStdout = false ∧
    (executeRScript parse args t w).signals = [.term] := by
  have hflag : (pumpStdout 0 "" w.chunks).2 = true := by
    rw [pump_exceeded_iff w.chunks 0 "" (by omega)]
    simpa using hex
  cases hp : pumpStdout 0 "" w.chunks with
  | mk s b =>
    rw [hp] at hflag
    subst hflag
    refine ⟨?_, ?_, ?_⟩ <;> simp [executeRScript, hval, hp]

theorem c5_output_size_cap_witness :
    validateArguments [JsArg.str "tool"] = .ok () ∧
    (∃ k, maxJsonSize <
      ((([String.mk (List.replicate (maxJsonSize + 1) 'a')] : List String).take k).map
        String.length).sum) ∧
    ((executeRScript (fun _ => none) [JsArg.str "tool"] 45000
        ⟨[String.mk (List.replicate (maxJsonSize + 1) 'a')], "", some 0, true⟩).outcome =
          .outputTooLarge ∧
     (executeRScript (fun _ => none) [JsArg.str "tool"] 45000
        ⟨[String.mk (List.replicate (maxJsonSize + 1) 'a')], "", some 0, true⟩).parsedStdout =
          false ∧
     (executeRScript (fun _ => none) [JsArg.str "tool"] 45000
        ⟨[String.mk (List.replicate (maxJsonSize + 1) 'a')], "", some 0, true⟩).signals =
          [.term]) :=
  ⟨rfl,
   ⟨1, by simp [String.length, List.length_replicate]⟩,
   c5_output_size_cap (fun _ => none) [JsArg.str "tool"] 45000
     ⟨[String.mk (List.replicate (maxJsonSize + 1) 'a')], "", some 0, true⟩
     rfl
     ⟨1, by simp [String.length, List.length_replicate]⟩⟩

/-- C6: for a worker run that exits with code zero and whose output never
tripped the size cap, an unparseable stdout settles as the
malformed-output failure, and a parsed value whose `status` field is the
string "error" settles as the domain-level failure constructor (carrying
the embedded message), which is distinct from the transport-level
constructors and in particular is never a success result. -/
theorem c6_zero_exit_classification (parse : String → Option JVal)
    (args : List JsArg) (t : Nat) (w : Worker)
    (hval : validateArguments args = .ok ())
    (hex : ¬ ∃ k, maxJsonSize < ((w.chunks.take k).map String.length).sum)
    (hexit : w.exit = some 0) :
    (parse (pumpStdout 0 "" w.chunks).1 = none →
      (executeRScript parse args t w).outcome = .malformedOutput) ∧
    (∀ v, parse (pumpStdout 0 "" w.chunks).1 = some v →
      isStrErrorVal (getField v "status") = true →
      (executeRScript parse args t w).outcome =
        .domainError (if truthy (getField v "message") then getField v "message"
                      else .str "Unknown R script error") ∧
      ∀ u, (executeRScript parse args t w).outcome ≠ .success u) := by
  have hflag : (pumpStdout 0 "" w.chunks).2 = false := by
    cases hb : (pumpStdout 0 "" w.chunks).2 with
    | false => rfl
    | true =>
      exact absurd ((pump_exceeded_iff w.chunks 0 "" (by omega)).mp hb) (by simpa using hex)
  have hlen : ¬ (pumpStdout 0 "" w.chunks).1.length > maxJsonSize := by
    have := pump_top_len w.chunks hflag
    omega
  cases hp : pumpStdout 0 "" w.chunks with
  | mk s b =>
    rw [hp] at hflag
    subst hflag
    rw [hp] at hlen
    constructor
    · intro hparse
      simp [executeRScript, hval, hp, hexit, closeOutcome, hlen, hparse]
    · intro v hparse hstatus
      constructor
      · simp [executeRScript, hval, hp, hexit, closeOutcome, hlen, hparse, hstatus]
      · intro u
        simp [executeRScript, hval, hp, hexit, closeOutcome, hlen, hparse, hstatus]

theorem c6_zero_exit_classification_witness :
    validateArguments [JsArg.str "tool"] = .ok () ∧
    (¬ ∃ k, maxJsonSize <
      ((([ "x" ] : List String).take k).map String.length).sum) ∧
    (executeRScript (fun _ => none) [JsArg.str "tool"] 45000
       ⟨["x"], "", some 0, true⟩).outcome = .malformedOutput ∧
    (executeRScript
       (fun _ => some (.obj [("status", JVal.str "error"), ("message", JVal.str "boom")]))
       [JsArg.str "tool"] 45000 ⟨["x"], "", some 0, true⟩).outcome =
      .domainError (.str "boom") ∧
    (∀ u, (executeRScript
       (fun _ => some (.obj [("status", JVal.str "error"), ("message", JVal.str "boom")]))
       [JsArg.str "tool"] 45000 ⟨["x"], "", some 0, true⟩).outcome ≠ .success u) := by
  have hex : ¬ ∃ k, maxJsonSize <
      ((([ "x" ] : List String).take k).map String.length).sum := by
    rintro ⟨k, hk⟩
    cases k with
    | zero => simp at hk
    | succ n =>
      rw [show ([ "x" ] : List String).take (n + 1) = ["x"] by simp] at hk
      revert hk
      decide
  refine ⟨rfl, hex, ?_, ?_, ?_⟩
  · exact (c6_zero_exit_classification (fun _ => none) [JsArg.str "tool"] 45000
      ⟨["x"], "", some 0, true⟩ rfl hex rfl).1 rfl
  · exact ((c6_zero_exit_classification
      (fun _ => some (.obj [("status", JVal.str "error"), ("message", JVal.str "boom")]))
      [JsArg.str "tool"] 45000 ⟨["x"], "", some 0, true⟩ rfl hex rfl).2
      (.obj [("status", JVal.str "error"), ("message", JVal.str "boom")]) rfl (by decide)).1
  · exact ((c6_zero_exit_classification
      (fun _ => some (.obj [("status", JVal.str "error"), ("message", JVal.str "boom")]))
      [JsArg.str "tool"] 45000 ⟨["x"], "", some 0, true⟩ rfl hex rfl).2
      (.obj [("status", JVal.str "error"), ("message", JVal.str "boom")]) rfl (by decide)).2

/-! ## Dispatcher lemmas -/

theorem handleToolCall_own (env : DispatchEnv) (name : String) (args : JVal)
    (v : Validator) (h : registryLookup name = .own v) (hok : v args = .ok ()) :
    handleToolCall env name args = afterValidation env name args := by
  simp [handleToolCall, h, hok]

theorem fieldLookup_setFieldR (l : List (String × JVal)) (k f : String) (v : JVal) :
    fieldLookup (setFieldR l k v) f =
      if k == f then some v else fieldLookup l f := by
  induction l with
  | nil => simp [setFieldR, fieldLookup]
  | cons kv rest ih =>
    obtain ⟨k0, v0⟩ := kv
    by_cases hk0 : k0 = k
    · subst hk0
      simp only [setFieldR, beq_self_eq_true, if_pos]
      by_cases hf : k0 = f <;> simp [fieldLookup, hf]
    · have hb : (k0 == k) = false := beq_eq_false_iff_ne.mpr hk0
      simp only [setFieldR, hb, Bool.false_eq_true, if_neg, not_false_iff]
      by_cases hf : k0 = f
      · subst hf
        have hb2 : (k0 == k0) = true := beq_self_eq_true k0
        have hb3 : (k == k0) = false := beq_eq_false_iff_ne.mpr (Ne.symm hk0)
        simp [fieldLookup, hb2, hb3]
      · have hb2 : (k0 == f) = false := beq_eq_false_iff_ne.mpr hf
        simp [fieldLookup, hb2, ih]

/-! ## Claims about the dispatcher -/

/-- C2: for every session-scoped tool (everything but session creation
and `health_check`), a call whose arguments pass the tool's parameter
validation but whose syntactically valid session id refers to no existing
session settles as the "Session not found" error and spawns no worker
process: the dispatcher checks `sessionExists` and raises before ever
invoking the executor. -/
theorem c2_fail_fast_before_spawn (env : DispatchEnv) (name : String)
    (args : JVal) (s : String)
    (hname : name ∈ sessionScopedTools)
    (hv : ∀ v, lookupOwnValidator name = some v → v args = .ok ())
    (hsid : getField args "session_id" = .str s)
    (hvalid : isValidSessionId s = true)
    (hnotex : sessionExists env.fs s = false) :
    (handleToolCall env name args).envelope =
      .err ("Session not found: " ++ s) "VALIDATION_ERROR" ∧
    (handleToolCall env name args).spawns = 0 := by
  simp only [sessionScopedTools, List.mem_cons, List.not_mem_nil, or_false] at hname
  rcases hname with rfl | rfl | rfl | rfl | rfl | rfl
  · rw [handleToolCall_own env "upload_study_data" args vUpload rfl (hv vUpload rfl)]
    simp [afterValidation, defaultToolCall, hsid, sessionExistsJ, hnotex,
      handleAppError, mkValidationError, jsDisplay]
  · rw [handleToolCall_own env "perform_meta_analysis" args vPerform rfl (hv vPerform rfl)]
    simp [afterValidation, defaultToolCall, hsid, sessionExistsJ, hnotex,
      handleAppError, mkValidationError, jsDisplay]
  · rw [handleToolCall_own env "generate_forest_plot" args vForest rfl (hv vForest rfl)]
    simp [afterValidation, defaultToolCall, hsid, sessionExistsJ, hnotex,
      handleAppError, mkValidationError, jsDisplay]
  · rw [handleToolCall_own env "assess_publication_bias" args vBias rfl (hv vBias rfl)]
    simp [afterValidation, defaultToolCall, hsid, sessionExistsJ, hnotex,
      handleAppError, mkValidationError, jsDisplay]
  · rw [handleToolCall_own env "generate_report" args vReport rfl (hv vReport rfl)]
    simp [afterValidation, defaultToolCall, hsid, sessionExistsJ, hnotex,
      handleAppError, mkValidationError, jsDisplay]
  · rw [handleToolCall_own env "get_session_status" args vStatus rfl (hv vStatus rfl)]
    simp [afterValidation, defaultToolCall, hsid, sessionExistsJ, hnotex,
      handleAppError, mkValidationError, jsDisplay]

theorem c2_fail_fast_before_spawn_witness :
    ("get_session_status" ∈ sessionScopedTools) ∧
    isValidSessionId "123e4567-e89b-42d3-a456-426614174000" = true ∧
    sessionExists emptyFs "123e4567-e89b-42d3-a456-426614174000" = false ∧
    ((handleToolCall
        ⟨emptyFs, "n", "t", ⟨[], "", some 0, true⟩, ⟨[], "", some 0, true⟩,
          ⟨[], "", some 0, true⟩, fun _ => none⟩
        "get_session_status"
        (.obj [("session_id", .str "123e4567-e89b-42d3-a456-426614174000")])).envelope =
       .err ("Session not found: " ++ "123e4567-e89b-42d3-a456-426614174000")
         "VALIDATION_ERROR" ∧
     (handleToolCall
        ⟨emptyFs, "n", "t", ⟨[], "", some 0, true⟩, ⟨[], "", some 0, true⟩,
          ⟨[], "", some 0, true⟩, fun _ => none⟩
        "get_session_status"
        (.obj [("session_id", .str "123e4567-e89b-42d3-a456-426614174000")])).spawns = 0) :=
  ⟨by decide, by decide, by decide,
   c2_fail_fast_before_spawn
     ⟨emptyFs, "n", "t", ⟨[], "", some 0, true⟩, ⟨[], "", some 0, true⟩,
       ⟨[], "", some 0, true⟩, fun _ => none⟩
     "get_session_status"
     (.obj [("session_id", .str "123e4567-e89b-42d3-a456-426614174000")])
     "123e4567-e89b-42d3-a456-426614174000"
     (by decide)
     (fun v h => by injection h with h2; subst h2; rfl)
     rfl (by decide) (by decide)⟩

/-- C9 (counterexample): the claim fails on the code in two ways, shown
at concrete inputs.  (i) "constructor" is not in the declared tool
registry, yet dispatching it does not produce an unknown-tool failure at
all: the JS record lookup finds `Object.prototype.constructor`, the
"validator" call is a no-op, and the call proceeds through session
resolution to the "Session not found: undefined" failure.  (ii) For a
genuinely absent name the error envelope's machine-checkable code is
"VALIDATION_ERROR" — the same code an ordinary parameter validation
failure carries (iii) — so no machine-checkable UnknownTool failure kind
exists. -/
theorem c9_counterexample :
    ("constructor" ∉ registeredToolNames) ∧
    (handleToolCall
       ⟨emptyFs, "n", "t", ⟨[], "", some 0, true⟩, ⟨[], "", some 0, true⟩,
         ⟨[], "", some 0, true⟩, fun _ => none⟩
       "constructor" (.obj [])).envelope =
      .err ("Session not found: undefined") "VALIDATION_ERROR" ∧
    (handleToolCall
       ⟨emptyFs, "n", "t", ⟨[], "", some 0, true⟩, ⟨[], "", some 0, true⟩,
         ⟨[], "", some 0, true⟩, fun _ => none⟩
       "not_a_real_tool" (.obj [])).envelope =
      .err ("Unknown tool: not_a_real_tool") "VALIDATION_ERROR" ∧
    (handleToolCall
       ⟨emptyFs, "n", "t", ⟨[], "", some 0, true⟩, ⟨[], "", some 0, true⟩,
         ⟨[], "", some 0, true⟩, fun _ => none⟩
       "get_session_status" (.obj [])).envelope =
      .err "Parameter 'session_id' is required and must be a string"
        "VALIDATION_ERROR" :=
  ⟨by decide, rfl, rfl, rfl⟩

/-- C9 (amended): for every tool name that is neither a key of the
declared registry object nor shadowed by an `Object.prototype` property,
the call settles immediately as the error envelope with message
"Unknown tool: name" and code VALIDATION_ERROR (there is no dedicated
UnknownTool code), with no worker spawned; the envelope is a constant in
the arguments and store state, so nothing is validated or resolved
first. -/
theorem c9_amended_unknown_tool (env : DispatchEnv) (name : String) (args : JVal)
    (h1 : lookupOwnValidator name = none)
    (h2 : objectProtoFnNames.contains name = false)
    (h3 : (name == "__proto__") = false) :
    (handleToolCall env name args).envelope =
      .err ("Unknown tool: " ++ name) "VALIDATION_ERROR" ∧
    (handleToolCall env name args).spawns = 0 := by
  have hreg : registryLookup name = .absent := by
    have h2m : name ∉ objectProtoFnNames := by simpa using h2
    simp [registryLookup, h1, h2, h2m, h3]
  refine ⟨?_, ?_⟩ <;> simp [handleToolCall, hreg, handleAppError, mkValidationError]

theorem c9_amended_unknown_tool_witness :
    lookupOwnValidator "not_a_real_tool" = none ∧
    objectProtoFnNames.contains "not_a_real_tool" = false ∧
    (("not_a_real_tool" : String) == "__proto__") = false ∧
    ((handleToolCall
        ⟨emptyFs, "n", "t", ⟨[], "", some 0, true⟩, ⟨[], "", some 0, true⟩,
          ⟨[], "", some 0, true⟩, fun _ => none⟩
        "not_a_real_tool" (.obj [])).envelope =
       .err ("Unknown tool: " ++ "not_a_real_tool") "VALIDATION_ERROR" ∧
     (handleToolCall
        ⟨emptyFs, "n", "t", ⟨[], "", some 0, true⟩, ⟨[], "", some 0, true⟩,
          ⟨[], "", some 0, true⟩, fun _ => none⟩
        "not_a_real_tool" (.obj [])).spawns = 0) :=
  ⟨rfl, by decide, by decide,
   c9_amended_unknown_tool
     ⟨emptyFs, "n", "t", ⟨[], "", some 0, true⟩, ⟨[], "", some 0, true⟩,
       ⟨[], "", some 0, true⟩, fun _ => none⟩
     "not_a_real_tool" (.obj []) rfl (by decide) (by decide)⟩

/-! ## Claim about the R entry point -/

/-- C10: the Node dispatcher resolves the worker's session path from the
validated session id alone (equal for any two bags agreeing on
`session_id`), and the R entry point overwrites any caller-supplied
`session_path` field with that resolved path before dispatching to a tool
handler — so two calls whose argument bags differ only in a
caller-supplied `session_path` field present identical (name-indexed)
argument bags to every tool handler, with `session_path` bound to the
resolved path. -/
theorem c10_session_path_override (b1 b2 : List (String × JVal)) (v : String)
    (h : ∀ f, f ≠ "session_path" → fieldLookup b1 f = fieldLookup b2 f) :
    getSessionPathJ (getField (.obj b1) "session_id") =
      getSessionPathJ (getField (.obj b2) "session_id") ∧
    (∀ f, fieldLookup (rEntryArgs b1 v) f = fieldLookup (rEntryArgs b2 v) f) ∧
    fieldLookup (rEntryArgs b1 v) "session_path" = some (.str v) := by
  refine ⟨?_, ?_, ?_⟩
  · have hs := h "session_id" (by decide)
    simp [getField, hs]
  · intro f
    rw [rEntryArgs, rEntryArgs, fieldLookup_setFieldR, fieldLookup_setFieldR]
    by_cases hf : "session_path" = f
    · simp [hf]
    · have hb : (("session_path" : String) == f) = false := beq_eq_false_iff_ne.mpr hf
      simp [hb, h f (fun he => hf he.symm)]
  · rw [rEntryArgs, fieldLookup_setFieldR]
    simp

theorem c10_session_path_override_witness :
    (∀ f, f ≠ "session_path" →
      fieldLookup [("session_id", JVal.str "123e4567-e89b-42d3-a456-426614174000"),
                   ("session_path", JVal.str "/evil/elsewhere")] f =
      fieldLookup [("session_id", JVal.str "123e4567-e89b-42d3-a456-426614174000")] f) ∧
    (getSessionPathJ (getField
        (.obj [("session_id", JVal.str "123e4567-e89b-42d3-a456-426614174000"),
               ("session_path", JVal.str "/evil/elsewhere")]) "session_id") =
      getSessionPathJ (getField
        (.obj [("session_id", JVal.str "123e4567-e89b-42d3-a456-426614174000")])
        "session_id") ∧
     (∀ f, fieldLookup (rEntryArgs
        [("session_id", JVal.str "123e4567-e89b-42d3-a456-426614174000"),
         ("session_path", JVal.str "/evil/elsewhere")] "sessions/x") f =
       fieldLookup (rEntryArgs
        [("session_id", JVal.str "123e4567-e89b-42d3-a456-426614174000")]
        "sessions/x") f) ∧
     fieldLookup (rEntryArgs
        [("session_id", JVal.str "123e4567-e89b-42d3-a456-426614174000"),
         ("session_path", JVal.str "/evil/elsewhere")] "sessions/x") "session_path" =
       some (.str "sessions/x")) := by
  have h : ∀ f, f ≠ "session_path" →
      fieldLookup [("session_id", JVal.str "123e4567-e89b-42d3-a456-426614174000"),
                   ("session_path", JVal.str "/evil/elsewhere")] f =
      fieldLookup [("session_id", JVal.str "123e4567-e89b-42d3-a456-426614174000")] f := by
    intro f hf
    have hb : (("session_path" : String) == f) = false :=
      beq_eq_false_iff_ne.mpr (fun he => hf he.symm)
    by_cases h1 : ("session_id" : String) = f
    · simp [fieldLookup, h1]
    · have hb1 : (("session_id" : String) == f) = false := beq_eq_false_iff_ne.mpr h1
      simp [fieldLookup, hb1, hb]
  exact ⟨h, c10_session_path_override _ _ "sessions/x" h⟩

end MetaMVP
